import Mathlib

/-!
Shallow embedding of the route-calculation edge function of
route-wizard-hub (supabase/functions/calculate-route/index.ts, the
final revision of the handler, lines 278-658 of the concatenated file).

Modelling conventions:
* JavaScript numbers that may be absent or non-finite (NaN, Infinity)
  are modelled as `Option` values: `none` stands for an absent or
  non-finite value, `some q` for a finite value.  Finite coordinate
  and summary values are modelled as rationals, which keeps the
  request pipeline executable; the trigonometric distance computation
  is carried out over the reals.
* The de-DE formatted display strings `distance` and `duration` of the
  response are presentation only and are not modelled; every numeric
  field they are derived from is modelled.
* The external geocoding service and the external directions service
  are oracles: the geocoder is a function parameter, the directions
  response is an explicit argument of the handler.
-/

/-- A JavaScript number that may be absent or non-finite: `none`
models `undefined`, `NaN` and the infinities, `some q` a finite value. -/
abbrev JsNum : Type := Option ℚ

/-- An incoming waypoint of the request body (interface `Waypoint`):
`lat` and `lng` are optional and may be non-finite. -/
structure Waypoint where
  id : String
  label : String
  address : String
  lat : JsNum
  lng : JsNum
deriving DecidableEq, Repr

/-- A waypoint whose coordinates passed the `Number.isFinite` filter of
the handler (the element type of the `valid` array). -/
structure ValidWaypoint where
  id : String
  label : String
  address : String
  lat : ℚ
  lng : ℚ
deriving DecidableEq, Repr

/-- Forgets the validity information again (used where the handler puts
the `valid` array into the response object). -/
def ValidWaypoint.toWaypoint (w : ValidWaypoint) : Waypoint :=
  { id := w.id, label := w.label, address := w.address,
    lat := some w.lat, lng := some w.lng }

/-- The `mode` field of the request body: `"car" | "walking"`. -/
inductive Mode where
  | car
  | walking
deriving DecidableEq, Repr

/-- The ORS profile chosen from the mode. -/
inductive Profile where
  | drivingCar
  | footWalking
deriving DecidableEq, Repr

/-- Source: `const profile = mode === "walking" ? "foot-walking" : "driving-car"`. -/
def profileOf (m : Mode) : Profile :=
  if m = Mode.walking then Profile.footWalking else Profile.drivingCar

/-- The request body (interface `RouteRequest`); the three optional
boolean flags are `none` when they are absent from the JSON body. -/
structure RouteRequest where
  waypoints : List Waypoint
  mode : Mode
  avoidTolls : Option Bool
  avoidHighways : Option Bool
  fastestRoute : Option Bool
deriving DecidableEq, Repr

/-- Lean model of `Math.abs` on finite values. -/
def mathAbs (x : ℚ) : ℚ :=
  if x < 0 then -x else x

/-- Source: `function almostEqual(a, b, tol = 1e-4) { return Math.abs(a - b) < tol; }` -/
def almostEqual (a b : ℚ) : Bool :=
  decide (mathAbs (a - b) < 1 / 10000)

/-- One step of the `dedupeConsecutive` loop: `out` is the array built
so far, the second argument the remaining input; a point is pushed
unless `out` has a last element with the same `lat` and `lng`
(source: `if (!last || last.lat !== p.lat || last.lng !== p.lng) out.push(p)`). -/
def dedupeLoop (out : List ValidWaypoint) : List ValidWaypoint → List ValidWaypoint
  | [] => out
  | p :: ps =>
    match out.getLast? with
    | none => dedupeLoop (out ++ [p]) ps
    | some last =>
      if last.lat = p.lat ∧ last.lng = p.lng then dedupeLoop out ps
      else dedupeLoop (out ++ [p]) ps

/-- Source: `function dedupeConsecutive(points)` — removes directly
consecutive duplicate points. -/
def dedupeConsecutive (points : List ValidWaypoint) : List ValidWaypoint :=
  dedupeLoop [] points

/-- Two waypoints carry different coordinates (the relation that holds
between any two consecutive points surviving `dedupeConsecutive`). -/
def DistinctCoords (a b : ValidWaypoint) : Prop :=
  ¬(a.lat = b.lat ∧ a.lng = b.lng)

lemma dedupeLoop_sublist (ps : List ValidWaypoint) :
    ∀ out : List ValidWaypoint, List.Sublist (dedupeLoop out ps) (out ++ ps) := by
  induction ps with
  | nil => intro out; simp [dedupeLoop]
  | cons p ps ih =>
    intro out
    rw [dedupeLoop]
    cases hlast : out.getLast? with
    | none =>
      simpa using (ih (out ++ [p]))
    | some last =>
      by_cases h : last.lat = p.lat ∧ last.lng = p.lng
      · simp only [h, if_true]
        exact (ih out).trans
          ((List.sublist_cons_self p ps).append_left out)
      · simp only [h, if_false]
        simpa using (ih (out ++ [p]))

lemma dedupeLoop_chain' (ps : List ValidWaypoint) :
    ∀ out : List ValidWaypoint, List.Chain' DistinctCoords out →
      List.Chain' DistinctCoords (dedupeLoop out ps) := by
  induction ps with
  | nil => intro out hout; simpa [dedupeLoop] using hout
  | cons p ps ih =>
    intro out hout
    rw [dedupeLoop]
    cases hlast : out.getLast? with
    | none =>
      have : out = [] := List.getLast?_eq_none_iff.mp hlast
      subst this
      exact ih [p] (List.chain'_singleton p)
    | some last =>
      by_cases h : last.lat = p.lat ∧ last.lng = p.lng
      · simp only [h, if_true]
        exact ih out hout
      · simp only [h, if_false]
        apply ih (out ++ [p])
        rw [List.chain'_append]
        refine ⟨hout, List.chain'_singleton p, ?_⟩
        intro x hx y hy
        rw [hlast] at hx
        simp at hx hy
        subst hx; subst hy
        exact h

lemma dedupeLoop_of_chain' (ps : List ValidWaypoint) :
    ∀ out : List ValidWaypoint, List.Chain' DistinctCoords (out ++ ps) →
      dedupeLoop out ps = out ++ ps := by
  induction ps with
  | nil => intro out _; simp [dedupeLoop]
  | cons p ps ih =>
    intro out hchain
    rw [dedupeLoop]
    cases hlast : out.getLast? with
    | none =>
      have hout : out = [] := List.getLast?_eq_none_iff.mp hlast
      subst hout
      simpa using ih [p] (by simpa using hchain)
    | some last =>
      have hR : DistinctCoords last p := by
        rw [List.chain'_append] at hchain
        exact hchain.2.2 last (by rw [hlast]; simp) p (by simp)
      have h : ¬(last.lat = p.lat ∧ last.lng = p.lng) := hR
      simp only [h, if_false]
      have : dedupeLoop (out ++ [p]) ps = (out ++ [p]) ++ ps := by
        apply ih
        simpa using hchain
      rw [this]
      simp

/-- Lean model of `Math.atan2 y x` on real arguments (JavaScript signed
zeros and NaNs are outside the model; the handler only applies it to
nonnegative square roots). -/
noncomputable def atan2R (y x : ℝ) : ℝ :=
  if 0 < x then Real.arctan (y / x)
  else if x < 0 ∧ 0 ≤ y then Real.arctan (y / x) + Real.pi
  else if x < 0 then Real.arctan (y / x) - Real.pi
  else if 0 < y then Real.pi / 2
  else if y < 0 then -(Real.pi / 2)
  else 0

/-- The intermediate value `a` of the haversine formula in
`haversineKm` (source: `const a = Math.sin(dLat / 2) ** 2 + ...`). -/
noncomputable def havA (lat1 lon1 lat2 lon2 : ℝ) : ℝ :=
  Real.sin ((lat2 - lat1) * Real.pi / 180 / 2) ^ 2 +
    Real.cos (lat1 * Real.pi / 180) * Real.cos (lat2 * Real.pi / 180) *
      Real.sin ((lon2 - lon1) * Real.pi / 180 / 2) ^ 2

/-- Source: `function haversineKm(lat1, lon1, lat2, lon2)` with
`R = 6371` km, returning `2 * R * Math.atan2(Math.sqrt(a), Math.sqrt(1 - a))`. -/
noncomputable def haversineKm (lat1 lon1 lat2 lon2 : ℝ) : ℝ :=
  2 * 6371 *
    atan2R (Real.sqrt (havA lat1 lon1 lat2 lon2))
      (Real.sqrt (1 - havA lat1 lon1 lat2 lon2))

/-- Source: `function calculateSimpleDistance(waypoints)` — sums the
haversine formula (identical to the body of `haversineKm`) over the
consecutive pairs of the waypoint array; empty and singleton arrays
give 0. -/
noncomputable def calculateSimpleDistance (waypoints : List ValidWaypoint) : ℝ :=
  (waypoints.zip waypoints.tail).foldl
    (fun totalKm ft =>
      totalKm + haversineKm ft.1.lat ft.1.lng ft.2.lat ft.2.lng)
    0

/-- Source: `function distanceFromLineStringKm(coords)` — coordinates
arrive in service order `[lon, lat]`; a consecutive pair contributes
its haversine length only when all four numbers are finite. -/
noncomputable def distanceFromLineStringKm (coords : List (JsNum × JsNum)) : ℝ :=
  (coords.zip coords.tail).foldl
    (fun sum pq =>
      match pq with
      | ((some lon1, some lat1), (some lon2, some lat2)) =>
        sum + haversineKm lat1 lon1 lat2 lon2
      | _ => sum)
    0

/-- Lean model of `Math.round`: rounds to the nearest integer, halves
towards positive infinity. -/
noncomputable def jsRound (x : ℝ) : ℤ :=
  ⌊x + 1 / 2⌋

/-- Source: `const speedKmh = profile === "foot-walking" ? 4.5 : 60`. -/
noncomputable def speedKmh : Profile → ℝ
  | Profile.footWalking => 4.5
  | Profile.drivingCar => 60

/-- The `properties.summary` object of the first ORS feature after the
`Number(...)` conversions of the handler: `none` models an absent or
non-finite field. -/
structure OrsSummary where
  distance : JsNum
  duration : JsNum
deriving DecidableEq, Repr

/-- One entry of `segments[].steps[]`. -/
structure OrsStep where
  instruction : String
deriving DecidableEq, Repr

/-- One entry of `properties.segments`; `steps` is `none` when it is
not an array. -/
structure OrsSegment where
  steps : Option (List OrsStep)
deriving DecidableEq, Repr

/-- The `geometry` object of an ORS feature; `coordinates` is `none`
when the field fails the `Array.isArray` check of the handler. -/
structure OrsGeometry where
  type : String
  coordinates : Option (List (JsNum × JsNum))
deriving DecidableEq, Repr

/-- One feature of the ORS GeoJSON feature collection; `geometry` is
`none` when the field is absent, and `summary` already reflects the
`props.summary ?? {}` defaulting of the handler. -/
structure OrsFeature where
  geometry : Option OrsGeometry
  summary : OrsSummary
  segments : Option (List OrsSegment)
deriving DecidableEq, Repr

/-- The parsed body of a 2xx ORS response; an absent or non-array
`features` field is modelled as the empty list. -/
structure OrsBody where
  features : List OrsFeature
deriving DecidableEq, Repr

/-- The outcome of the `fetch` to the ORS directions endpoint:
`httpError status errMsg` models the `!orsRes.ok` branch with the
already-extracted error text, `success body` a 2xx response. -/
inductive OrsResponse where
  | httpError (status : ℕ) (errMsg : String)
  | success (body : OrsBody)
deriving DecidableEq, Repr

/-- The geometry field of the normalized response: the fallback
branches return an array of `[lat, lng]` pairs for Leaflet, the
success branch passes the GeoJSON LineString (service order
`[lon, lat]`) through unchanged. -/
inductive Geometry where
  | latLngPath (points : List (ℚ × ℚ))
  | lineString (coords : List (JsNum × JsNum))
deriving DecidableEq, Repr

/-- The normalized response object of the handler.  The numeric fields
`distanceMeters`, `distanceKm` and `durationSeconds` exist only on the
success branch and are `none` on the fallback branches; the de-DE
display strings derived from them are presentation only and are not
modelled. -/
structure RouteResult where
  distanceMeters : Option ℤ
  distanceKm : Option ℝ
  durationSeconds : Option ℝ
  instructions : List String
  geometry : Geometry
  waypoints : List Waypoint
  fallback : Bool
  errorMessage : Option String

/-- Response of the first guard (source: `!Array.isArray(waypoints) ||
waypoints.length < 2`). -/
def insufficientResponse (ws : List Waypoint) : RouteResult :=
  { distanceMeters := none, distanceKm := none, durationSeconds := none,
    instructions := [],
    geometry := Geometry.latLngPath [],
    waypoints := ws,
    fallback := true,
    errorMessage := some "Mindestens 2 gültige Adressen erforderlich" }

/-- Response of the distinct-points guard (source: fewer than 2 valid
points after dedupe, or exactly 2 that are `almostEqual` in both
coordinates). -/
def identicalResponse (valid : List ValidWaypoint) : RouteResult :=
  { distanceMeters := none, distanceKm := none, durationSeconds := none,
    instructions := [],
    geometry := Geometry.latLngPath (valid.map fun w => (w.lat, w.lng)),
    waypoints := valid.map ValidWaypoint.toWaypoint,
    fallback := true,
    errorMessage :=
      some "Start und Ziel dürfen nicht identisch sein / zu wenig unterschiedliche Punkte haben" }

/-- The instruction template of the straight-line fallback for the
waypoint at 0-based position `i` of `total` waypoints (source:
`i === 0 ? ... : i === valid.length - 1 ? ... : ...`). -/
def instructionAt (total i : ℕ) (addr : String) : String :=
  if i = 0 then "1. Start in " ++ addr
  else if i = total - 1 then toString (i + 1) ++ ". Ziel: " ++ addr
  else toString (i + 1) ++ ". Weiter nach " ++ addr

/-- The indexed map underlying the fallback instruction synthesis
(`valid.map((wp, i) => ...)`): `i` is the index of the first element
of the remaining list. -/
def numberInstructions (total : ℕ) : ℕ → List ValidWaypoint → List String
  | _, [] => []
  | i, wp :: rest => instructionAt total i wp.address :: numberInstructions total (i + 1) rest

/-- The synthesized placeholder instructions of the fallback branches. -/
def fallbackInstructions (valid : List ValidWaypoint) : List String :=
  numberInstructions valid.length 0 valid

/-- Response of the `!orsRes.ok` branch: straight-line geometry over
the valid waypoints, synthesized instructions, and the HTTP status in
the error message. -/
def httpErrorResponse (valid : List ValidWaypoint) (status : ℕ) (errMsg : String) :
    RouteResult :=
  { distanceMeters := none, distanceKm := none, durationSeconds := none,
    instructions := fallbackInstructions valid,
    geometry := Geometry.latLngPath (valid.map fun w => (w.lat, w.lng)),
    waypoints := valid.map ValidWaypoint.toWaypoint,
    fallback := true,
    errorMessage := some ("ORS HTTP " ++ toString status ++ ": " ++ errMsg) }

/-- Response of the `no_feature` branch (2xx response without a usable
first LineString feature). -/
def noRouteResponse (valid : List ValidWaypoint) : RouteResult :=
  { distanceMeters := none, distanceKm := none, durationSeconds := none,
    instructions := fallbackInstructions valid,
    geometry := Geometry.latLngPath (valid.map fun w => (w.lat, w.lng)),
    waypoints := valid.map ValidWaypoint.toWaypoint,
    fallback := true,
    errorMessage := some "ORS lieferte keine Route zwischen den Punkten." }

/-- The numbered turn-by-turn instructions of one segment
(`segment.steps.map((step, i) => ...)`). -/
def numberSteps : ℕ → List OrsStep → List String
  | _, [] => []
  | i, st :: rest => (toString (i + 1) ++ ". " ++ st.instruction) :: numberSteps (i + 1) rest

/-- The turn-by-turn instructions of the success branch
(`props.segments.flatMap(...)`; a non-array `segments` or `steps`
contributes nothing). -/
def successInstructions (segments : Option (List OrsSegment)) : List String :=
  match segments with
  | none => []
  | some segs =>
    (segs.map fun seg =>
      match seg.steps with
      | none => []
      | some sts => numberSteps 0 sts).flatten

/-- The success branch of the handler: distance is always the rounded
haversine sum over the returned geometry, duration comes from
`summary.duration` when that is finite and positive and is otherwise
estimated from the distance and the profile speed. -/
noncomputable def successResponse (profile : Profile) (valid : List ValidWaypoint)
    (feature : OrsFeature) (coords : List (JsNum × JsNum)) : RouteResult :=
  let distanceMeters : ℤ := jsRound (distanceFromLineStringKm coords * 1000)
  let estimate : ℝ :=
    (jsRound ((distanceMeters : ℝ) / 1000 / speedKmh profile * 3600) : ℝ)
  let durationSeconds : ℝ :=
    match feature.summary.duration with
    | some d => if 0 < d then (d : ℝ) else estimate
    | none => estimate
  { distanceMeters := some distanceMeters,
    distanceKm := some ((distanceMeters : ℝ) / 1000),
    durationSeconds := some durationSeconds,
    instructions := successInstructions feature.segments,
    geometry := Geometry.lineString coords,
    waypoints := valid.map ValidWaypoint.toWaypoint,
    fallback := false,
    errorMessage := none }

/-- The per-waypoint geocoding step (`geocoded = await Promise.all(...)`):
waypoints that already carry finite coordinates bypass the geocoder,
otherwise the coordinates of the oracle are spread in when it
resolves, and the waypoint is kept unchanged when it does not. -/
def geocodeWaypoint (geocode : String → Option (ℚ × ℚ)) (wp : Waypoint) : Waypoint :=
  if wp.lat.isSome ∧ wp.lng.isSome then wp
  else
    match geocode wp.address with
    | some coords => { wp with lat := some coords.1, lng := some coords.2 }
    | none => wp

/-- The `Number.isFinite` filter producing the `valid` array: a
waypoint survives exactly when both coordinates are finite. -/
def toValid (wp : Waypoint) : Option ValidWaypoint :=
  match wp.lat, wp.lng with
  | some la, some ln =>
    some { id := wp.id, label := wp.label, address := wp.address, lat := la, lng := ln }
  | _, _ => none

/-- The `valid` array of the handler after geocoding, filtering and
consecutive deduplication. -/
def validPoints (geocode : String → Option (ℚ × ℚ)) (ws : List Waypoint) :
    List ValidWaypoint :=
  dedupeConsecutive ((ws.map (geocodeWaypoint geocode)).filterMap toValid)

/-- The distinct-points guard of the handler (source:
`valid.length < 2 || (valid.length === 2 && almostEqual(valid[0].lat,
valid[1].lat) && almostEqual(valid[0].lng, valid[1].lng))`). -/
def degenerate (valid : List ValidWaypoint) : Bool :=
  decide (valid.length < 2) ||
    match valid with
    | [a, b] => almostEqual a.lat b.lat && almostEqual a.lng b.lng
    | _ => false

/-- Dispatch on the outcome of the directions call: the `!orsRes.ok`
fallback, the `no_feature` fallback (first feature missing, geometry
missing, type not `LineString`, or coordinates not an array), or the
success branch. -/
noncomputable def handleOrs (profile : Profile) (valid : List ValidWaypoint) :
    OrsResponse → RouteResult
  | OrsResponse.httpError status errMsg => httpErrorResponse valid status errMsg
  | OrsResponse.success body =>
    match body.features.head? with
    | none => noRouteResponse valid
    | some feature =>
      match feature.geometry with
      | none => noRouteResponse valid
      | some g =>
        if g.type = "LineString" then
          match g.coordinates with
          | some coords => successResponse profile valid feature coords
          | none => noRouteResponse valid
        else noRouteResponse valid

/-- The request handler of the edge function, with the geocoder and
the directions response as oracles.  It is a total function: every
anticipated failure is converted into a well-formed `RouteResult`. -/
noncomputable def handleRoute (geocode : String → Option (ℚ × ℚ))
    (req : RouteRequest) (ors : OrsResponse) : RouteResult :=
  if req.waypoints.length < 2 then
    insufficientResponse req.waypoints
  else if degenerate (validPoints geocode req.waypoints) then
    identicalResponse (validPoints geocode req.waypoints)
  else
    handleOrs (profileOf req.mode) (validPoints geocode req.waypoints) ors

/-- The JSON body the handler sends to the ORS directions endpoint
(source: the `body: JSON.stringify({...})` argument of the fetch). -/
structure OrsRequestBody where
  coordinates : List (ℚ × ℚ)
  preference : String
  avoidFeatures : Option (List String)
deriving DecidableEq, Repr

/-- Builds the directions request from the request flags and the valid
waypoints: coordinates in service order `[lon, lat]`, preference
`fastestRoute ? "fastest" : "shortest"`, and the avoidance list only
for the driving profile and only when it is nonempty. -/
def orsRequestBody (req : RouteRequest) (valid : List ValidWaypoint) : OrsRequestBody :=
  let profile := profileOf req.mode
  let avoid : List String :=
    (if req.avoidTolls = some true then ["tollways"] else []) ++
      (if req.avoidHighways = some true then ["highways"] else [])
  { coordinates := valid.map fun w => (w.lng, w.lat),
    preference := if req.fastestRoute = some true then "fastest" else "shortest",
    avoidFeatures :=
      if profile = Profile.drivingCar ∧ avoid ≠ [] then some avoid else none }

/-- The directions request actually sent for a given incoming request:
`none` when one of the guards returns before the fetch is reached. -/
def orsRequestOf (geocode : String → Option (ℚ × ℚ)) (req : RouteRequest) :
    Option OrsRequestBody :=
  if req.waypoints.length < 2 then none
  else if degenerate (validPoints geocode req.waypoints) then none
  else some (orsRequestBody req (validPoints geocode req.waypoints))

/-- The condition under which the handler accepts a 2xx body as a real
route (the negation of the `no_feature` guard): the first feature
exists, has a geometry of type `LineString`, and its coordinates field
is an array. -/
def usableFirstFeature (body : OrsBody) : Bool :=
  match body.features.head? with
  | none => false
  | some feature =>
    match feature.geometry with
    | none => false
    | some g => g.type == "LineString" && g.coordinates.isSome

/-- Replaces `summary.distance` of the first feature, leaving
everything else of the body unchanged (used to state that the handler
never reads this field). -/
def setSummaryDistance (body : OrsBody) (d : JsNum) : OrsBody :=
  { features :=
      match body.features with
      | [] => []
      | f :: rest =>
        { f with summary := { f.summary with distance := d } } :: rest }

lemma numberInstructions_length (total : ℕ) :
    ∀ (i : ℕ) (l : List ValidWaypoint),
      (numberInstructions total i l).length = l.length := by
  intro i l
  induction l generalizing i with
  | nil => simp [numberInstructions]
  | cons wp rest ih => simp [numberInstructions, ih]

lemma numberInstructions_getElem? (total : ℕ) :
    ∀ (i k : ℕ) (l : List ValidWaypoint),
      (numberInstructions total i l)[k]? =
        (l[k]?).map fun wp => instructionAt total (i + k) wp.address := by
  intro i k l
  induction l generalizing i k with
  | nil => simp [numberInstructions]
  | cons wp rest ih =>
    cases k with
    | zero => simp [numberInstructions]
    | succ k =>
      simp only [numberInstructions, List.getElem?_cons_succ, ih]
      have : i + 1 + k = i + (k + 1) := by omega
      rw [this]

lemma degenerate_false_length {valid : List ValidWaypoint}
    (h : degenerate valid = false) : 2 ≤ valid.length := by
  by_contra hlt
  have : decide (valid.length < 2) = true := by
    simpa using Nat.lt_of_not_le hlt
  simp [degenerate, this] at h

lemma handleOrs_success_eq (profile : Profile) (valid : List ValidWaypoint)
    (body : OrsBody) (feature : OrsFeature) (g : OrsGeometry)
    (coords : List (JsNum × JsNum))
    (hfeat : body.features.head? = some feature)
    (hg : feature.geometry = some g)
    (hty : g.type = "LineString")
    (hco : g.coordinates = some coords) :
    handleOrs profile valid (OrsResponse.success body) =
      successResponse profile valid feature coords := by
  obtain ⟨features⟩ := body
  cases features with
  | nil => simp at hfeat
  | cons f rest =>
    simp only [List.head?_cons, Option.some.injEq] at hfeat
    subst hfeat
    obtain ⟨geomOpt, summ, segs⟩ := f
    simp only at hg
    subst hg
    obtain ⟨ty, coordsOpt⟩ := g
    simp only at hty hco
    subst hty
    subst hco
    rfl

lemma handleOrs_noRoute_eq (profile : Profile) (valid : List ValidWaypoint)
    (body : OrsBody)
    (hbad : usableFirstFeature body = false) :
    handleOrs profile valid (OrsResponse.success body) = noRouteResponse valid := by
  obtain ⟨features⟩ := body
  cases features with
  | nil => rfl
  | cons f rest =>
    obtain ⟨geomOpt, summ, segs⟩ := f
    cases geomOpt with
    | none => rfl
    | some g =>
      obtain ⟨ty, coordsOpt⟩ := g
      by_cases hty : ty = "LineString"
      · subst hty
        cases coordsOpt with
        | none => rfl
        | some coords =>
          exfalso
          simp [usableFirstFeature] at hbad
      · simp [handleOrs, hty]

lemma handleRoute_guards_passed (geocode : String → Option (ℚ × ℚ))
    (req : RouteRequest) (ors : OrsResponse)
    (h2 : 2 ≤ req.waypoints.length)
    (hdeg : degenerate (validPoints geocode req.waypoints) = false) :
    handleRoute geocode req ors =
      handleOrs (profileOf req.mode) (validPoints geocode req.waypoints) ors := by
  unfold handleRoute
  rw [if_neg (by omega), hdeg]
  simp

lemma handleRoute_httpError (geocode : String → Option (ℚ × ℚ))
    (req : RouteRequest) (status : ℕ) (errMsg : String)
    (h2 : 2 ≤ req.waypoints.length)
    (hdeg : degenerate (validPoints geocode req.waypoints) = false) :
    handleRoute geocode req (OrsResponse.httpError status errMsg) =
      httpErrorResponse (validPoints geocode req.waypoints) status errMsg := by
  rw [handleRoute_guards_passed geocode req _ h2 hdeg]
  rfl

lemma handleRoute_success (geocode : String → Option (ℚ × ℚ))
    (req : RouteRequest) (body : OrsBody)
    (feature : OrsFeature) (g : OrsGeometry) (coords : List (JsNum × JsNum))
    (h2 : 2 ≤ req.waypoints.length)
    (hdeg : degenerate (validPoints geocode req.waypoints) = false)
    (hfeat : body.features.head? = some feature)
    (hg : feature.geometry = some g)
    (hty : g.type = "LineString")
    (hco : g.coordinates = some coords) :
    handleRoute geocode req (OrsResponse.success body) =
      successResponse (profileOf req.mode) (validPoints geocode req.waypoints)
        feature coords := by
  rw [handleRoute_guards_passed geocode req _ h2 hdeg]
  exact handleOrs_success_eq _ _ _ _ _ _ hfeat hg hty hco

lemma handleRoute_noRoute (geocode : String → Option (ℚ × ℚ))
    (req : RouteRequest) (body : OrsBody)
    (h2 : 2 ≤ req.waypoints.length)
    (hdeg : degenerate (validPoints geocode req.waypoints) = false)
    (hbad : usableFirstFeature body = false) :
    handleRoute geocode req (OrsResponse.success body) =
      noRouteResponse (validPoints geocode req.waypoints) := by
  rw [handleRoute_guards_passed geocode req _ h2 hdeg]
  exact handleOrs_noRoute_eq _ _ _ hbad

lemma jsRound_approx (x : ℝ) : |((jsRound x : ℤ) : ℝ) - x| ≤ 1 / 2 := by
  unfold jsRound
  have h1 : ((⌊x + 1 / 2⌋ : ℤ) : ℝ) ≤ x + 1 / 2 := Int.floor_le _
  have h2 : x + 1 / 2 < ((⌊x + 1 / 2⌋ : ℤ) : ℝ) + 1 := Int.lt_floor_add_one _
  rw [abs_le]
  constructor <;> linarith

lemma havA_symm (lat1 lon1 lat2 lon2 : ℝ) :
    havA lat1 lon1 lat2 lon2 = havA lat2 lon2 lat1 lon1 := by
  unfold havA
  have hs : ∀ x y : ℝ,
      Real.sin ((x - y) * Real.pi / 180 / 2) ^ 2 =
        Real.sin ((y - x) * Real.pi / 180 / 2) ^ 2 := by
    intro x y
    rw [show (x - y) * Real.pi / 180 / 2 = -((y - x) * Real.pi / 180 / 2) by ring,
      Real.sin_neg, neg_sq]
  rw [hs lat2 lat1, hs lon2 lon1, mul_comm (Real.cos (lat1 * Real.pi / 180))]

lemma haversineKm_symm (lat1 lon1 lat2 lon2 : ℝ) :
    haversineKm lat1 lon1 lat2 lon2 = haversineKm lat2 lon2 lat1 lon1 := by
  unfold haversineKm
  rw [havA_symm]

lemma havA_self (lat lon : ℝ) : havA lat lon lat lon = 0 := by
  unfold havA
  simp

lemma haversineKm_self (lat lon : ℝ) : haversineKm lat lon lat lon = 0 := by
  unfold haversineKm
  rw [havA_self]
  have : atan2R (Real.sqrt 0) (Real.sqrt (1 - 0)) = 0 := by
    unfold atan2R
    rw [Real.sqrt_zero, sub_zero, Real.sqrt_one]
    rw [if_pos one_pos]
    simp [Real.arctan_zero]
  rw [this, mul_zero]

/-- A geocoder oracle that never resolves (the fixture requests below
already carry coordinates, so it is never consulted). -/
def noGeocode : String → Option (ℚ × ℚ) := fun _ => none

/-- Fixture waypoint with finite coordinates. -/
def wpBerlin : Waypoint :=
  { id := "1", label := "A", address := "Berlin", lat := some 52, lng := some 13 }

/-- Fixture waypoint with finite coordinates distinct from `wpBerlin`. -/
def wpParis : Waypoint :=
  { id := "2", label := "B", address := "Paris", lat := some 48, lng := some 2 }

/-- Fixture request with two valid, clearly distinct waypoints and all
optional flags absent. -/
def twoPointReq : RouteRequest :=
  { waypoints := [wpBerlin, wpParis], mode := Mode.car,
    avoidTolls := none, avoidHighways := none, fastestRoute := none }

/-- Fixture request with a single waypoint. -/
def singleReq : RouteRequest :=
  { waypoints := [wpBerlin], mode := Mode.car,
    avoidTolls := none, avoidHighways := none, fastestRoute := none }

/-- Fixture request with `fastestRoute` set to `true`. -/
def fastestReq : RouteRequest :=
  { waypoints := [wpBerlin, wpParis], mode := Mode.car,
    avoidTolls := none, avoidHighways := none, fastestRoute := some true }

/-- Fixture LineString coordinates in service order `[lon, lat]`. -/
def demoCoords : List (JsNum × JsNum) := [(some 13, some 52), (some 2, some 48)]

/-- Fixture ORS geometry of type `LineString` over `demoCoords`. -/
def demoGeometry : OrsGeometry := { type := "LineString", coordinates := some demoCoords }

/-- Fixture ORS feature with absent summary fields. -/
def demoFeature : OrsFeature :=
  { geometry := some demoGeometry,
    summary := { distance := none, duration := none }, segments := none }

/-- Fixture 2xx ORS body with one usable LineString feature. -/
def demoBody : OrsBody := { features := [demoFeature] }

/-- A LineString coordinate array with a single point. -/
def onePointCoords : List (JsNum × JsNum) := [(some 13, some 52)]

/-- Fixture 2xx ORS body without any feature. -/
def noFeatureBody : OrsBody := { features := [] }

/-- Fixture 2xx ORS body whose first feature is a LineString of one
single coordinate pair. -/
def onePointBody : OrsBody :=
  { features :=
      [{ geometry := some { type := "LineString", coordinates := some onePointCoords },
         summary := { distance := none, duration := none }, segments := none }] }

/-- C1: on every successful directions response whose first feature is
a LineString, the reconciled `distanceMeters` is the rounded haversine
sum over the consecutive finite coordinate pairs of the returned
geometry (so it agrees with that sum to within half a meter), and the
`summary.distance` field of the service plays no role: replacing it by
an arbitrary value leaves `distanceMeters` unchanged. -/
theorem C1_distance_always_from_geometry
    (geocode : String → Option (ℚ × ℚ)) (req : RouteRequest) (body : OrsBody)
    (feature : OrsFeature) (g : OrsGeometry) (coords : List (JsNum × JsNum))
    (h2 : 2 ≤ req.waypoints.length)
    (hdeg : degenerate (validPoints geocode req.waypoints) = false)
    (hfeat : body.features.head? = some feature)
    (hg : feature.geometry = some g)
    (hty : g.type = "LineString")
    (hco : g.coordinates = some coords) :
    (handleRoute geocode req (OrsResponse.success body)).distanceMeters =
        some (jsRound (distanceFromLineStringKm coords * 1000)) ∧
    |((jsRound (distanceFromLineStringKm coords * 1000) : ℤ) : ℝ) -
        distanceFromLineStringKm coords * 1000| ≤ 1 / 2 ∧
    ∀ d : JsNum,
      (handleRoute geocode req
          (OrsResponse.success (setSummaryDistance body d))).distanceMeters =
        (handleRoute geocode req (OrsResponse.success body)).distanceMeters := by
  refine ⟨?_, jsRound_approx _, ?_⟩
  · rw [handleRoute_success geocode req body feature g coords h2 hdeg hfeat hg hty hco]
    rfl
  · intro d
    obtain ⟨features⟩ := body
    cases features with
    | nil => simp at hfeat
    | cons f rest =>
      simp only [List.head?_cons, Option.some.injEq] at hfeat
      subst hfeat
      rw [handleRoute_success geocode req ⟨f :: rest⟩ f g coords h2 hdeg rfl hg hty hco]
      rw [handleRoute_success geocode req (setSummaryDistance ⟨f :: rest⟩ d)
        { f with summary := { f.summary with distance := d } } g coords h2 hdeg rfl hg hty hco]
      rfl

/-- Witness for C1 at a concrete request and response. -/
theorem C1_distance_always_from_geometry_witness :
    2 ≤ twoPointReq.waypoints.length ∧
    degenerate (validPoints noGeocode twoPointReq.waypoints) = false ∧
    (handleRoute noGeocode twoPointReq (OrsResponse.success demoBody)).distanceMeters =
      some (jsRound (distanceFromLineStringKm demoCoords * 1000)) :=
  ⟨by decide, by with_unfolding_all rfl,
    (C1_distance_always_from_geometry noGeocode twoPointReq demoBody demoFeature
      demoGeometry demoCoords (by decide) (by with_unfolding_all rfl) rfl rfl rfl rfl).1⟩

/-- C2: on every successful directions response, when the summary
duration is absent, non-finite or not positive, `durationSeconds` is
the rounded estimate `distanceKm / speed * 3600` with the profile
speed 60 km/h for driving and 4.5 km/h for walking; when the summary
duration is finite and positive it is used unchanged. -/
theorem C2_duration_reconciliation
    (geocode : String → Option (ℚ × ℚ)) (req : RouteRequest) (body : OrsBody)
    (feature : OrsFeature) (g : OrsGeometry) (coords : List (JsNum × JsNum))
    (h2 : 2 ≤ req.waypoints.length)
    (hdeg : degenerate (validPoints geocode req.waypoints) = false)
    (hfeat : body.features.head? = some feature)
    (hg : feature.geometry = some g)
    (hty : g.type = "LineString")
    (hco : g.coordinates = some coords) :
    ((feature.summary.duration = none ∨
        ∃ d : ℚ, feature.summary.duration = some d ∧ d ≤ 0) →
      (handleRoute geocode req (OrsResponse.success body)).durationSeconds =
        some ((jsRound ((jsRound (distanceFromLineStringKm coords * 1000) : ℝ) / 1000 /
          speedKmh (profileOf req.mode) * 3600) : ℝ))) ∧
    (∀ d : ℚ, feature.summary.duration = some d → 0 < d →
      (handleRoute geocode req (OrsResponse.success body)).durationSeconds =
        some (d : ℝ)) ∧
    (handleRoute geocode req (OrsResponse.success body)).distanceKm =
      some ((jsRound (distanceFromLineStringKm coords * 1000) : ℝ) / 1000) ∧
    speedKmh (profileOf Mode.car) = 60 ∧
    speedKmh (profileOf Mode.walking) = 4.5 := by
  rw [handleRoute_success geocode req body feature g coords h2 hdeg hfeat hg hty hco]
  refine ⟨?_, ?_, rfl, rfl, rfl⟩
  · intro hdur
    rcases hdur with hnone | ⟨d, hd, hle⟩
    · simp [successResponse, hnone]
    · simp [successResponse, hd, not_lt.mpr hle]
  · intro d hd hpos
    simp [successResponse, hd, hpos]

/-- Witness for C2 at a concrete request and a response with an absent
summary duration. -/
theorem C2_duration_reconciliation_witness :
    demoFeature.summary.duration = none ∧
    (handleRoute noGeocode twoPointReq (OrsResponse.success demoBody)).durationSeconds =
      some ((jsRound ((jsRound (distanceFromLineStringKm demoCoords * 1000) : ℝ) / 1000 /
        speedKmh (profileOf twoPointReq.mode) * 3600) : ℝ)) :=
  ⟨rfl,
    (C2_duration_reconciliation noGeocode twoPointReq demoBody demoFeature
      demoGeometry demoCoords (by decide) (by with_unfolding_all rfl)
      rfl rfl rfl rfl).1 (Or.inl rfl)⟩

/-- C3: when the directions service answers with a non-2xx status, the
handler returns a fallback result whose error message is nonempty and
embeds the HTTP status, and whose geometry is exactly the valid
waypoints in order as latitude-longitude pairs; the handler is a total
function, so nothing is thrown past this boundary. -/
theorem C3_http_error_fallback
    (geocode : String → Option (ℚ × ℚ)) (req : RouteRequest)
    (status : ℕ) (errMsg : String)
    (h2 : 2 ≤ req.waypoints.length)
    (hdeg : degenerate (validPoints geocode req.waypoints) = false) :
    (handleRoute geocode req (OrsResponse.httpError status errMsg)).fallback = true ∧
    (handleRoute geocode req (OrsResponse.httpError status errMsg)).errorMessage =
      some ("ORS HTTP " ++ toString status ++ ": " ++ errMsg) ∧
    "ORS HTTP " ++ toString status ++ ": " ++ errMsg ≠ "" ∧
    (∃ pre post : String,
      "ORS HTTP " ++ toString status ++ ": " ++ errMsg =
        pre ++ toString status ++ post) ∧
    (handleRoute geocode req (OrsResponse.httpError status errMsg)).geometry =
      Geometry.latLngPath
        ((validPoints geocode req.waypoints).map fun w => (w.lat, w.lng)) := by
  rw [handleRoute_httpError geocode req status errMsg h2 hdeg]
  refine ⟨rfl, rfl, ?_, ⟨"ORS HTTP ", ": " ++ errMsg, by rw [String.append_assoc]⟩, rfl⟩
  intro h
  have hlen := congrArg String.length h
  rw [String.length_append, String.length_append, String.length_append] at hlen
  have h9 : ("ORS HTTP " : String).length = 9 := rfl
  have h0 : ("" : String).length = 0 := rfl
  rw [h9, h0] at hlen
  omega

/-- Witness for C3 at a concrete request and an HTTP 500 response. -/
theorem C3_http_error_fallback_witness :
    degenerate (validPoints noGeocode twoPointReq.waypoints) = false ∧
    (handleRoute noGeocode twoPointReq
      (OrsResponse.httpError 500 "Internal Server Error")).fallback = true :=
  ⟨by with_unfolding_all rfl,
    (C3_http_error_fallback noGeocode twoPointReq 500 "Internal Server Error"
      (by decide) (by with_unfolding_all rfl)).1⟩

/-- C4: the sanitizer output never contains two consecutive points
with equal latitude and longitude, and it is a sublist of the input,
so the retained points keep their relative order. -/
theorem C4_sanitizer_dedupes_and_preserves_order (ps : List ValidWaypoint) :
    List.Chain' DistinctCoords (dedupeConsecutive ps) ∧
    List.Sublist (dedupeConsecutive ps) ps :=
  ⟨dedupeLoop_chain' ps [] List.chain'_nil,
    by simpa using dedupeLoop_sublist ps []⟩

/-- C5: whenever fewer than 2 usable points remain after geocoding and
deduplication, or exactly 2 remain that are equal within the 1e-4
tolerance, the handler returns a fallback-flagged result carrying one
of the two insufficient-waypoints messages, and the directions
response is never consulted (the result is the same for every oracle
answer); totality of the handler means no exception escapes. -/
theorem C5_insufficient_waypoints_structured
    (geocode : String → Option (ℚ × ℚ)) (req : RouteRequest) (ors : OrsResponse)
    (hdeg : degenerate (validPoints geocode req.waypoints) = true) :
    (handleRoute geocode req ors).fallback = true ∧
    ((handleRoute geocode req ors).errorMessage =
        some "Mindestens 2 gültige Adressen erforderlich" ∨
      (handleRoute geocode req ors).errorMessage =
        some "Start und Ziel dürfen nicht identisch sein / zu wenig unterschiedliche Punkte haben") ∧
    ∀ ors' : OrsResponse, handleRoute geocode req ors' = handleRoute geocode req ors := by
  unfold handleRoute
  by_cases h : req.waypoints.length < 2
  · simp [h, insufficientResponse]
  · rw [if_neg h, if_pos hdeg]
    refine ⟨rfl, Or.inr rfl, ?_⟩
    intro ors'
    rw [if_neg h, if_pos hdeg]

/-- Witness for C5 at a concrete single-waypoint request. -/
theorem C5_insufficient_waypoints_structured_witness :
    degenerate (validPoints noGeocode singleReq.waypoints) = true ∧
    (handleRoute noGeocode singleReq (OrsResponse.httpError 500 "down")).fallback = true :=
  ⟨by with_unfolding_all rfl,
    (C5_insufficient_waypoints_structured noGeocode singleReq
      (OrsResponse.httpError 500 "down") (by with_unfolding_all rfl)).1⟩

/-- C6, counterexample: for a request whose `fastestRoute` flag is
unspecified, the preference actually sent to the directions service is
"shortest", not the "fastest" default the claim states. -/
theorem C6_preference_default_cex :
    twoPointReq.fastestRoute = none ∧
    (orsRequestOf noGeocode twoPointReq).map OrsRequestBody.preference =
      some "shortest" ∧
    ("shortest" : String) ≠ "fastest" :=
  ⟨rfl, by with_unfolding_all rfl, by decide⟩

/-- C6, amended: the preference sent to the directions service is
"fastest" exactly when `fastestRoute` is `true`, and it is "shortest"
both when the flag is `false` and when it is unspecified. -/
theorem C6_preference_amended
    (geocode : String → Option (ℚ × ℚ)) (req : RouteRequest) (body : OrsRequestBody)
    (h : orsRequestOf geocode req = some body) :
    (body.preference = "fastest" ↔ req.fastestRoute = some true) ∧
    (req.fastestRoute = some false → body.preference = "shortest") ∧
    (req.fastestRoute = none → body.preference = "shortest") := by
  unfold orsRequestOf at h
  by_cases h2 : req.waypoints.length < 2
  · rw [if_pos h2] at h
    exact absurd h (by simp)
  · rw [if_neg h2] at h
    by_cases hdeg : degenerate (validPoints geocode req.waypoints)
    · rw [if_pos hdeg] at h
      exact absurd h (by simp)
    · rw [if_neg hdeg] at h
      have hb : body = orsRequestBody req (validPoints geocode req.waypoints) := by
        simpa using h.symm
      subst hb
      refine ⟨?_, ?_, ?_⟩
      · by_cases hf : req.fastestRoute = some true
        · simp [orsRequestBody, hf]
        · simp only [orsRequestBody, if_neg hf]
          constructor
          · intro hcontra
            exact absurd hcontra (by decide)
          · intro hcontra
            exact absurd hcontra hf
      · intro hf
        simp [orsRequestBody, hf]
      · intro hf
        simp [orsRequestBody, hf]

/-- Witness for the amended C6 at a concrete request with
`fastestRoute` set. -/
theorem C6_preference_amended_witness :
    orsRequestOf noGeocode fastestReq =
      some (orsRequestBody fastestReq (validPoints noGeocode fastestReq.waypoints)) ∧
    ((orsRequestBody fastestReq
        (validPoints noGeocode fastestReq.waypoints)).preference = "fastest" ↔
      fastestReq.fastestRoute = some true) :=
  ⟨by with_unfolding_all rfl,
    (C6_preference_amended noGeocode fastestReq _ (by with_unfolding_all rfl)).1⟩

/-- C7, counterexample: a 2xx response whose first feature is a
LineString of a single coordinate pair is accepted as a success
(`fallback = false`), although the claim demands a NoRouteFound
fallback for geometries with fewer than two points. -/
theorem C7_single_point_accepted_cex :
    onePointCoords.length < 2 ∧
    (handleRoute noGeocode twoPointReq
      (OrsResponse.success onePointBody)).fallback = false :=
  ⟨by decide, by with_unfolding_all rfl⟩

lemma usableFirstFeature_spec {body : OrsBody} (h : usableFirstFeature body = true) :
    ∃ feature g coords, body.features.head? = some feature ∧
      feature.geometry = some g ∧ g.type = "LineString" ∧
      g.coordinates = some coords := by
  obtain ⟨features⟩ := body
  cases features with
  | nil => simp [usableFirstFeature] at h
  | cons f rest =>
    obtain ⟨geomOpt, summ, segs⟩ := f
    cases geomOpt with
    | none => simp [usableFirstFeature] at h
    | some g =>
      obtain ⟨ty, coordsOpt⟩ := g
      simp only [usableFirstFeature, List.head?_cons, Bool.and_eq_true, beq_iff_eq,
        Option.isSome_iff_exists] at h
      obtain ⟨hty, coords, hco⟩ := h
      exact ⟨_, _, coords, rfl, rfl, hty, hco⟩

/-- C7, amended: a 2xx response is treated as a success exactly when
its first feature carries a geometry of type LineString whose
coordinates field is an array — no minimum number of coordinate pairs
is enforced; every other 2xx response yields the NoRouteFound-style
fallback with its fixed error message, and the handler never throws. -/
theorem C7_success_check_amended
    (geocode : String → Option (ℚ × ℚ)) (req : RouteRequest) (body : OrsBody)
    (h2 : 2 ≤ req.waypoints.length)
    (hdeg : degenerate (validPoints geocode req.waypoints) = false) :
    ((handleRoute geocode req (OrsResponse.success body)).fallback = false ↔
      usableFirstFeature body = true) ∧
    (usableFirstFeature body = false →
      (handleRoute geocode req (OrsResponse.success body)).errorMessage =
        some "ORS lieferte keine Route zwischen den Punkten.") := by
  cases husable : usableFirstFeature body with
  | false =>
    rw [handleRoute_noRoute geocode req body h2 hdeg husable]
    exact ⟨by simp [noRouteResponse], fun _ => rfl⟩
  | true =>
    obtain ⟨feature, g, coords, hfeat, hg, hty, hco⟩ := usableFirstFeature_spec husable
    rw [handleRoute_success geocode req body feature g coords h2 hdeg hfeat hg hty hco]
    exact ⟨by simp [successResponse], by simp⟩

/-- Witness for the amended C7 at a concrete usable response. -/
theorem C7_success_check_amended_witness :
    degenerate (validPoints noGeocode twoPointReq.waypoints) = false ∧
    ((handleRoute noGeocode twoPointReq
        (OrsResponse.success demoBody)).fallback = false ↔
      usableFirstFeature demoBody = true) :=
  ⟨by with_unfolding_all rfl,
    (C7_success_check_amended noGeocode twoPointReq demoBody (by decide)
      (by with_unfolding_all rfl)).1⟩

/-- C8, counterexample: the first synthesized fallback instruction of
the handler reads "1. Start in ..." (German wording of the source),
not the "1. Start at ..." template stated by the claim. -/
theorem C8_instruction_wording_cex :
    (handleRoute noGeocode twoPointReq
      (OrsResponse.httpError 500 "boom")).instructions[0]? =
      some "1. Start in Berlin" ∧
    ("1. Start in Berlin" : String) ≠ "1. Start at Berlin" :=
  ⟨by with_unfolding_all rfl, by decide⟩

/-- C8, amended: every fallback route synthesized after the
directions call — the HTTP-error fallback as well as the
no-usable-route fallback — over n valid waypoints carries exactly n
synthesized instructions, with the German templates of the source:
the first entry is "1. Start in ...", each interior entry i is
"i+1. Weiter nach ...", and the last entry is "n. Ziel: ...". -/
theorem C8_fallback_instruction_templates_amended
    (geocode : String → Option (ℚ × ℚ)) (req : RouteRequest) (ors : OrsResponse)
    (h2 : 2 ≤ req.waypoints.length)
    (hdeg : degenerate (validPoints geocode req.waypoints) = false)
    (hfb : (∃ status errMsg, ors = OrsResponse.httpError status errMsg) ∨
      (∃ body, ors = OrsResponse.success body ∧ usableFirstFeature body = false)) :
    (handleRoute geocode req ors).instructions.length =
      (validPoints geocode req.waypoints).length ∧
    (∀ wp : ValidWaypoint, (validPoints geocode req.waypoints)[0]? = some wp →
      (handleRoute geocode req ors).instructions[0]? =
        some ("1. Start in " ++ wp.address)) ∧
    (∀ (i : ℕ) (wp : ValidWaypoint), 0 < i →
      i < (validPoints geocode req.waypoints).length - 1 →
      (validPoints geocode req.waypoints)[i]? = some wp →
      (handleRoute geocode req ors).instructions[i]? =
        some (toString (i + 1) ++ ". Weiter nach " ++ wp.address)) ∧
    (∀ wp : ValidWaypoint,
      (validPoints geocode
          req.waypoints)[(validPoints geocode req.waypoints).length - 1]? =
        some wp →
      (handleRoute geocode req
          ors).instructions[(validPoints geocode req.waypoints).length - 1]? =
        some (toString (validPoints geocode req.waypoints).length ++
          ". Ziel: " ++ wp.address)) := by
  have hins : (handleRoute geocode req ors).instructions =
      fallbackInstructions (validPoints geocode req.waypoints) := by
    rcases hfb with ⟨status, errMsg, rfl⟩ | ⟨body, rfl, hbad⟩
    · rw [handleRoute_httpError geocode req status errMsg h2 hdeg]
      rfl
    · rw [handleRoute_noRoute geocode req body h2 hdeg hbad]
      rfl
  rw [hins]
  have hlen2 : 2 ≤ (validPoints geocode req.waypoints).length :=
    degenerate_false_length hdeg
  refine ⟨?_, ?_, ?_, ?_⟩
  · exact numberInstructions_length _ 0 _
  · intro wp hwp
    rw [fallbackInstructions, numberInstructions_getElem?, hwp]
    simp [instructionAt]
  · intro i wp hi0 hilast hwp
    rw [fallbackInstructions, numberInstructions_getElem?, hwp]
    have hne0 : ¬(i = 0) := by omega
    have hnel : ¬(i = (validPoints geocode req.waypoints).length - 1) := by omega
    simp [instructionAt, hne0, hnel]
  · intro wp hwp
    rw [fallbackInstructions, numberInstructions_getElem?, hwp]
    have hne0 : ¬((validPoints geocode req.waypoints).length - 1 = 0) := by omega
    have hsucc : (validPoints geocode req.waypoints).length - 1 + 1 =
        (validPoints geocode req.waypoints).length := by omega
    simp [instructionAt, hne0, hsucc]

/-- Witness for the amended C8 at a concrete request and a 2xx
response without features (the no-usable-route fallback). -/
theorem C8_fallback_instruction_templates_amended_witness :
    usableFirstFeature noFeatureBody = false ∧
    degenerate (validPoints noGeocode twoPointReq.waypoints) = false ∧
    (handleRoute noGeocode twoPointReq
        (OrsResponse.success noFeatureBody)).instructions.length =
      (validPoints noGeocode twoPointReq.waypoints).length :=
  ⟨rfl, by with_unfolding_all rfl,
    (C8_fallback_instruction_templates_amended noGeocode twoPointReq
      (OrsResponse.success noFeatureBody) (by decide) (by with_unfolding_all rfl)
      (Or.inr ⟨noFeatureBody, rfl, rfl⟩)).1⟩

/-- C9: the haversine distance of the source is symmetric in its two
points and vanishes on equal points, both for the segment function
`haversineKm` and for the two-point straight-line sum
`calculateSimpleDistance`. -/
theorem C9_haversine_symmetric_and_zero :
    (∀ lat1 lon1 lat2 lon2 : ℝ,
      haversineKm lat1 lon1 lat2 lon2 = haversineKm lat2 lon2 lat1 lon1) ∧
    (∀ lat lon : ℝ, haversineKm lat lon lat lon = 0) ∧
    (∀ A B : ValidWaypoint,
      calculateSimpleDistance [A, B] = calculateSimpleDistance [B, A]) ∧
    (∀ A : ValidWaypoint, calculateSimpleDistance [A, A] = 0) := by
  refine ⟨haversineKm_symm, haversineKm_self, ?_, ?_⟩
  · intro A B
    simp only [calculateSimpleDistance, List.tail_cons, List.zip_cons_cons,
      List.zip_nil_right, List.foldl_cons, List.foldl_nil, zero_add]
    exact haversineKm_symm _ _ _ _
  · intro A
    simp only [calculateSimpleDistance, List.tail_cons, List.zip_cons_cons,
      List.zip_nil_right, List.foldl_cons, List.foldl_nil, zero_add]
    exact haversineKm_self _ _

/-- C10: collapsing consecutive duplicates is idempotent. -/
theorem C10_dedupe_idempotent (ps : List ValidWaypoint) :
    dedupeConsecutive (dedupeConsecutive ps) = dedupeConsecutive ps := by
  have hchain : List.Chain' DistinctCoords (dedupeLoop [] ps) :=
    dedupeLoop_chain' ps [] List.chain'_nil
  have h := dedupeLoop_of_chain' (dedupeLoop [] ps) [] (by simpa using hchain)
  simpa [dedupeConsecutive] using h
